import Mathlib

/-!
Verification development for the twinspeak session protocol engine.

The Go sources embedded here:
- pkg/session/state.go : the session `State` enumeration;
- the session package (Session entity, NewSession, Append, Store with
  Put/Get/Delete over a map keyed by session ID);
- the srv package dispatcher (handleSpeakWS read loop, handleMessage,
  handleSetup, handleInputText, handleInputAudio, handleToolResult,
  handleEndSession, sendError, writeJSON).

Modelling conventions:
- Go `map[ID]*Session` is an association list; insertion replaces the
  binding for an existing key, lookup returns the first binding.
- Pointers: the connection's session variable and the registry entry alias
  the same mutable Session object.  We model the pointer heap as an
  association list keyed by session ID (IDs are unique UUIDs) and the
  registry as the set of IDs currently present in the Store map; every
  mutation through the shared pointer is a heap update at that ID.
- `time.Now()` is an external clock; each dispatch step receives one clock
  reading `now` used for every timestamp taken during that step.
- `json.Unmarshal` of a frame into a typed payload is abstracted by the
  frame carrying, for each payload type, the parse outcome as an `Option`.
- A WebSocket write may fail; each dispatch step performs at most one
  write, whose outcome is the environment bit `wOk`.
-/

namespace Twinspeak

/-- Session lifecycle states, from pkg/session/state.go
(`StateConnecting` .. `StateClosed`, iota-ordered). -/
inductive State where
  | connecting
  | configured
  | active
  | closing
  | closed
deriving DecidableEq, Repr

/-- The underlying iota value of a state (state.go declares them with
`State int` and `iota`). -/
def State.toNat : State → Nat
  | .connecting => 0
  | .configured => 1
  | .active     => 2
  | .closing    => 3
  | .closed     => 4

/-- The `String()` method of `State`. -/
def State.str : State → String
  | .connecting => "Connecting"
  | .configured => "Configured"
  | .active     => "Active"
  | .closing    => "Closing"
  | .closed     => "Closed"

/-- Order on states induced by the iota values: the protocol order
Connecting → Configured → Active → Closing → Closed. -/
def State.le (a b : State) : Prop := a.toNat ≤ b.toNat

instance (a b : State) : Decidable (State.le a b) := by
  unfold State.le
  infer_instance

theorem State.le_refl (a : State) : State.le a a := Nat.le_refl _

/-- Session identifiers (`type ID string`, UUID strings in practice). -/
abbrev ID := String

/-- Payload of a `setup` message (generated `SetupRequestJson`: `model`
plus an optional opaque `session_config`). -/
structure SetupRequest where
  model : String
  sessionConfig : Option String
deriving DecidableEq, Repr

/-- Payload of an `input_text` message (`ClientInputTextJson`). -/
structure InputText where
  text : String
  turnId : Option String
deriving DecidableEq, Repr

/-- Payload of an `input_audio` message (`ClientInputAudioJson`). -/
structure InputAudio where
  format : String
  chunk : String
  final : Bool
deriving DecidableEq, Repr

/-- Payload of a `tool_result` message (`ToolResultJson`). -/
structure ToolResult where
  name : String
  callId : String
  result : String
deriving DecidableEq, Repr

/-- Payload of an `end_session` message (`SessionEndJson`). -/
structure SessionEnd where
  reason : String
deriving DecidableEq, Repr

/-- An entry of a session's log (`Log []any` holds the parsed payload
structs appended by the handlers). -/
inductive LogEntry where
  | setup (r : SetupRequest)
  | text (r : InputText)
  | audio (r : InputAudio)
  | tool (r : ToolResult)
  | ended (r : SessionEnd)
deriving DecidableEq, Repr

/-- The Session entity (session package): identity, model, lifecycle
state, resumption handle, timestamps and append-only log. -/
structure Session where
  id : ID
  model : String
  state : State
  resumptionHandle : String
  createdAt : Nat
  updatedAt : Nat
  log : List LogEntry
deriving DecidableEq, Repr

/-- `NewSession(model)`: fresh ID from the generator, initial state
Connecting, both timestamps set to the current clock, empty log. -/
def NewSession (freshID : ID) (model : String) (now : Nat) : Session :=
  { id := freshID
    model := model
    state := .connecting
    resumptionHandle := ""
    createdAt := now
    updatedAt := now
    log := [] }

/-- `Session.Append(message)`: appends to the log and refreshes
`UpdatedAt`. -/
def Session.append (s : Session) (m : LogEntry) (now : Nat) : Session :=
  { s with log := s.log ++ [m], updatedAt := now }

/-! ### The Session Store (registry), from the session package.

`Store` wraps `map[ID]*Session`.  For the registry-contract claims we
model the map directly as an association list of ID/Session bindings with
Go map semantics: `Put` replaces or adds the binding for `session.ID`,
`Get` looks the key up without modifying the map, `Delete` removes every
binding for the key (a no-op when the key is absent). -/

/-- The Store map contents: `sessions map[ID]*Session`. -/
abbrev StoreMap := List (ID × Session)

/-- Go map lookup `s.sessions[id]`: first binding for the key, if any. -/
def mapLookup : StoreMap → ID → Option Session
  | [], _ => none
  | (k, v) :: t, id => if k = id then some v else mapLookup t id

/-- Go map assignment `s.sessions[key] = session`: replace the existing
binding for the key, or add one. -/
def mapInsert : StoreMap → ID → Session → StoreMap
  | [], id, s => [(id, s)]
  | (k, v) :: t, id, s => if k = id then (id, s) :: t else (k, v) :: mapInsert t id s

/-- Go `delete(s.sessions, id)`: remove the binding(s) for the key;
absent keys are a no-op. -/
def mapErase (m : StoreMap) (id : ID) : StoreMap :=
  m.filter (fun e => decide (e.1 ≠ id))

/-- In-place mutation of the Session object bound to a key, as happens in
Go through the shared pointer held by both the connection and the map. -/
def mapUpdate : StoreMap → ID → (Session → Session) → StoreMap
  | [], _, _ => []
  | (k, v) :: t, id, f =>
    if k = id then (k, f v) :: mapUpdate t id f else (k, v) :: mapUpdate t id f

/-- `Store.Put(session)`: stores the session under its own ID. -/
def Store.put (m : StoreMap) (s : Session) : StoreMap :=
  mapInsert m s.id s

/-- `Store.Get(id)`: returns the binding (presence = `isSome`) together
with the store left behind, which `Get` does not change. -/
def Store.get (m : StoreMap) (id : ID) : Option Session × StoreMap :=
  (mapLookup m id, m)

/-- `Store.Delete(id)`: removes the binding for the ID. -/
def Store.delete (m : StoreMap) (id : ID) : StoreMap :=
  mapErase m id

/-! ### Map and heap lemmas. -/

theorem mapLookup_mapInsert_self (m : StoreMap) (id : ID) (s : Session) :
    mapLookup (mapInsert m id s) id = some s := by
  induction m with
  | nil => simp [mapInsert, mapLookup]
  | cons e t ih =>
    obtain ⟨k, v⟩ := e
    by_cases hk : k = id
    · simp [mapInsert, hk, mapLookup]
    · simp [mapInsert, hk, mapLookup, ih]

theorem mapLookup_mapInsert_other (m : StoreMap) (id j : ID) (s : Session)
    (hj : j ≠ id) : mapLookup (mapInsert m id s) j = mapLookup m j := by
  induction m with
  | nil => simp [mapInsert, mapLookup, Ne.symm hj]
  | cons e t ih =>
    obtain ⟨k, v⟩ := e
    by_cases hk : k = id
    · subst hk
      simp [mapInsert, mapLookup, Ne.symm hj]
    · simp [mapInsert, hk, mapLookup, ih]

theorem mapLookup_mapUpdate_self (m : StoreMap) (id : ID) (f : Session → Session) :
    mapLookup (mapUpdate m id f) id = (mapLookup m id).map f := by
  induction m with
  | nil => rfl
  | cons e t ih =>
    obtain ⟨k, v⟩ := e
    by_cases hk : k = id
    · subst hk
      simp [mapUpdate, mapLookup]
    · simp [mapUpdate, mapLookup, hk, ih]

theorem mapLookup_mapUpdate_other (m : StoreMap) (id j : ID) (f : Session → Session)
    (hj : j ≠ id) :
    mapLookup (mapUpdate m id f) j = mapLookup m j := by
  induction m with
  | nil => rfl
  | cons e t ih =>
    obtain ⟨k, v⟩ := e
    by_cases hk : k = id
    · subst hk
      simp [mapUpdate, mapLookup, Ne.symm hj, ih]
    · by_cases hkj : k = j
      · subst hkj
        simp [mapUpdate, mapLookup, hk]
      · simp [mapUpdate, mapLookup, hk, hkj, ih]

theorem mapLookup_mapErase_self (m : StoreMap) (id : ID) :
    mapLookup (mapErase m id) id = none := by
  induction m with
  | nil => rfl
  | cons e t ih =>
    obtain ⟨k, v⟩ := e
    by_cases hk : k = id
    · simp [mapErase, List.filter, hk] at ih ⊢
      exact ih
    · simp [mapErase, List.filter, hk, mapLookup] at ih ⊢
      exact ih

theorem mapLookup_mapErase_other (m : StoreMap) (id j : ID) (hj : j ≠ id) :
    mapLookup (mapErase m id) j = mapLookup m j := by
  induction m with
  | nil => rfl
  | cons e t ih =>
    obtain ⟨k, v⟩ := e
    by_cases hk : k = id
    · subst hk
      simp [mapErase, List.filter, mapLookup, Ne.symm hj] at ih ⊢
      exact ih
    · by_cases hkj : k = j
      · subst hkj
        simp [mapErase, List.filter, hk, mapLookup]
      · simp [mapErase, List.filter, hk, mapLookup, hkj] at ih ⊢
        exact ih

/-! ### The Protocol Dispatcher (srv package).

`handleSpeakWS` keeps two per-connection variables, `sess *session.Session`
and `sessionID session.ID`.  The session pointer is shared with the
registry entry once `Put` has run, so we keep a heap of allocated session
objects keyed by their unique IDs and let the connection hold the ID of
the object its pointer designates; the registry is the set of IDs present
in the Store map, each bound to the heap object of the same ID. -/

/-- The server-side shared state: the heap of allocated Session objects
and the key set of the Store map (`Server.Store`). -/
structure SrvState where
  heap : StoreMap
  reg : List ID
deriving DecidableEq, Repr

/-- The Store map viewed through `Get`: a registered ID resolves to the
heap object it was `Put` with (the pointer stored in the map). -/
def SrvState.regGet (st : SrvState) (id : ID) : Option Session :=
  if id ∈ st.reg then mapLookup st.heap id else none

/-- Allocation of a fresh Session object (its ID is a fresh UUID, so it
shadows no live object). -/
def SrvState.alloc (st : SrvState) (s : Session) : SrvState :=
  { st with heap := mapInsert st.heap s.id s }

/-- Mutation of the Session object with the given ID through a shared
pointer. -/
def SrvState.updateSess (st : SrvState) (id : ID) (f : Session → Session) : SrvState :=
  { st with heap := mapUpdate st.heap id f }

/-- `Store.Put` as seen from the dispatcher: registers the (already
allocated) object's ID in the Store map. -/
def SrvState.putReg (st : SrvState) (id : ID) : SrvState :=
  { st with reg := if id ∈ st.reg then st.reg else id :: st.reg }

/-- `Store.Delete` as seen from the dispatcher: removes the ID from the
Store map (the heap object itself survives through the connection's
pointer). -/
def SrvState.deleteReg (st : SrvState) (id : ID) : SrvState :=
  { st with reg := st.reg.filter (fun k => decide (k ≠ id)) }

/-- The per-connection variables of `handleSpeakWS`: the session pointer
(`none` = nil) and the `sessionID` variable (zero value `""`). -/
structure Conn where
  sess : Option ID
  sessionID : ID
deriving DecidableEq, Repr

/-- Server→client frames (`SessionResumptionUpdateJson`,
`ServerOutputTextJson`, `ErrorJson`). -/
inductive Response where
  | resumptionUpdate (handle : String)
  | outputText (text : String) (final : Bool)
  | error (code message : String)
deriving DecidableEq, Repr

/-- Whether a response frame is an `error` frame. -/
def Response.isErr : Response → Bool
  | .error _ _ => true
  | _ => false

/-- One attempted `writeJSON` call: the frame and whether the write
succeeded. -/
structure Write where
  resp : Response
  ok : Bool
deriving DecidableEq, Repr

/-- A client frame after envelope decoding, as the dispatcher sees it:
a non-text frame, a frame whose envelope fails to decode, or a decoded
envelope type together with the outcome of `json.Unmarshal` into each
typed payload the handlers may attempt. -/
structure RawMsg where
  envType : String
  asSetup : Option SetupRequest
  asText : Option InputText
  asAudio : Option InputAudio
  asTool : Option ToolResult
  asEnd : Option SessionEnd
deriving DecidableEq, Repr

/-- One inbound event of the read loop. -/
inductive InFrame where
  | nonText
  | badEnvelope
  | msg (m : RawMsg)
deriving DecidableEq, Repr

/-- Per-step environment: the UUID the generator would return, the clock
reading, and the outcome of the step's (at most one) write. -/
structure StepEnv where
  freshID : ID
  now : Nat
  wOk : Bool
deriving DecidableEq, Repr

/-- Result of one loop iteration: updated shared state, updated
connection variables, the writes attempted, and the `shouldReturn`
flag that terminates the read loop. -/
structure StepOut where
  st : SrvState
  conn : Conn
  writes : List Write
  stop : Bool
deriving DecidableEq, Repr

/-- `sendError`: writes an error frame; a write failure is only logged,
never propagated. -/
def sendError (wOk : Bool) (code message : String) : List Write :=
  [⟨Response.error code message, wOk⟩]

/-- `handleSetup`: reject a second setup, reject an unparsable payload,
otherwise create the session (Connecting), set it Configured, derive the
resumption handle, record the sessionID, `Put` it, append the setup
request to its log, and send the resumption update; a failed write of
that update returns `true` (terminate). -/
def handleSetup (env : StepEnv) (m : RawMsg) (st : SrvState) (c : Conn) : StepOut :=
  match c.sess with
  | some _ => ⟨st, c, sendError env.wOk "already_setup" "Session already configured", false⟩
  | none =>
    match m.asSetup with
    | none => ⟨st, c, sendError env.wOk "bad_setup" "Invalid setup request format", false⟩
    | some req =>
      let s0 := NewSession env.freshID req.model env.now
      let s1 := { s0 with state := State.configured,
                          resumptionHandle := "session_" ++ env.freshID }
      let c1 : Conn := { sess := some env.freshID, sessionID := env.freshID }
      let st1 := ((st.alloc s1).putReg env.freshID).updateSess env.freshID
        (fun s => s.append (.setup req) env.now)
      ⟨st1, c1, [⟨Response.resumptionUpdate ("session_" ++ env.freshID), env.wOk⟩], !env.wOk⟩

/-- `handleInputText`: require a session, parse, set Active, append, echo
the text back; a failed write of the echo returns `true`. -/
def handleInputText (env : StepEnv) (m : RawMsg) (st : SrvState) (c : Conn) : StepOut :=
  match c.sess with
  | none => ⟨st, c, sendError env.wOk "no_session" "No active session", false⟩
  | some id =>
    match m.asText with
    | none => ⟨st, c, sendError env.wOk "bad_json" "Invalid text input format", false⟩
    | some ti =>
      let st1 := st.updateSess id
        (fun s => ({ s with state := State.active }).append (.text ti) env.now)
      ⟨st1, c, [⟨Response.outputText ("[echo] " ++ ti.text) true, env.wOk⟩], !env.wOk⟩

/-- `handleInputAudio`: require a session, parse, set Active, append,
acknowledge the chunk; a failed write of the acknowledgment returns
`true`. -/
def handleInputAudio (env : StepEnv) (m : RawMsg) (st : SrvState) (c : Conn) : StepOut :=
  match c.sess with
  | none => ⟨st, c, sendError env.wOk "no_session" "No active session", false⟩
  | some id =>
    match m.asAudio with
    | none => ⟨st, c, sendError env.wOk "bad_json" "Invalid audio input format", false⟩
    | some ai =>
      let st1 := st.updateSess id
        (fun s => ({ s with state := State.active }).append (.audio ai) env.now)
      ⟨st1, c,
        [⟨Response.outputText
            ("Received audio chunk in " ++ ai.format ++ " format (final: "
              ++ (if ai.final then "true" else "false") ++ ")") true, env.wOk⟩],
        !env.wOk⟩

/-- `handleToolResult`: require a session, parse, append only; no
response frame. -/
def handleToolResult (env : StepEnv) (m : RawMsg) (st : SrvState) (c : Conn) : StepOut :=
  match c.sess with
  | none => ⟨st, c, sendError env.wOk "no_session" "No active session", false⟩
  | some id =>
    match m.asTool with
    | none => ⟨st, c, sendError env.wOk "bad_json" "Invalid tool result format", false⟩
    | some tr =>
      let st1 := st.updateSess id (fun s => s.append (.tool tr) env.now)
      ⟨st1, c, [], false⟩

/-- `handleEndSession`: require a session, parse, set Closing, append,
send the goodbye (a failed write is only logged), set Closed, delete the
`sessionID` entry from the Store, and return `true` (terminate). -/
def handleEndSession (env : StepEnv) (m : RawMsg) (st : SrvState) (c : Conn) : StepOut :=
  match c.sess with
  | none => ⟨st, c, sendError env.wOk "no_session" "No active session", false⟩
  | some id =>
    match m.asEnd with
    | none => ⟨st, c, sendError env.wOk "bad_json" "Invalid session end format", false⟩
    | some e =>
      let st1 := st.updateSess id
        (fun s => ({ s with state := State.closing }).append (.ended e) env.now)
      let st2 := st1.updateSess id (fun s => { s with state := State.closed })
      let st3 := st2.deleteReg c.sessionID
      ⟨st3, c, [⟨Response.outputText "Goodbye! Session ended." true, env.wOk⟩], true⟩

/-- `handleMessage`: route by the envelope discriminator (Go `switch` on
the type string); unknown discriminators get an `unknown_type` error. -/
def handleMessage (env : StepEnv) (m : RawMsg) (st : SrvState) (c : Conn) : StepOut :=
  if m.envType = "setup" then handleSetup env m st c
  else if m.envType = "input_text" then handleInputText env m st c
  else if m.envType = "input_audio" then handleInputAudio env m st c
  else if m.envType = "tool_result" then handleToolResult env m st c
  else if m.envType = "end_session" then handleEndSession env m st c
  else ⟨st, c, sendError env.wOk "unknown_type" ("Unknown message type: " ++ m.envType), false⟩

/-- One iteration of the `handleSpeakWS` read loop after a frame arrives:
non-text frames and undecodable envelopes get a `bad_json` error and the
loop continues; otherwise the message is dispatched. -/
def dispatchStep (env : StepEnv) (f : InFrame) (st : SrvState) (c : Conn) : StepOut :=
  match f with
  | .nonText => ⟨st, c, sendError env.wOk "bad_json" "Only text messages are supported", false⟩
  | .badEnvelope => ⟨st, c, sendError env.wOk "bad_json" "Invalid JSON format", false⟩
  | .msg m => handleMessage env m st c

/-- The read loop over a finite inbound schedule: the trace of
configurations after each executed iteration; the loop stops early when
an iteration returns `true`. -/
def run (st : SrvState) (c : Conn) : List (InFrame × StepEnv) → List (SrvState × Conn)
  | [] => []
  | (f, env) :: rest =>
    let r := dispatchStep env f st c
    (r.st, r.conn) :: (if r.stop then [] else run r.st r.conn rest)

/-- The initial shared state: empty heap, empty Store map. -/
def initState : SrvState := ⟨[], []⟩

/-- The initial connection variables: nil session pointer, zero-value
sessionID. -/
def initConn : Conn := ⟨none, ""⟩

/-- The session state the connection observes: `Connecting` is modeled as
"no session"; otherwise the state of the object the pointer designates. -/
def obsState (st : SrvState) (c : Conn) : State :=
  match c.sess with
  | none => State.connecting
  | some id =>
    match mapLookup st.heap id with
    | some s => s.state
    | none => State.connecting

theorem mapErase_absent (m : StoreMap) (id : ID)
    (h : mapLookup m id = none) : mapErase m id = m := by
  induction m with
  | nil => rfl
  | cons e t ih =>
    obtain ⟨k, v⟩ := e
    by_cases hk : k = id
    · simp [mapLookup, hk] at h
    · simp [mapLookup, hk] at h
      simp [mapErase, List.filter, hk] at ih ⊢
      exact ih h

theorem lookup_updateSess_self (st : SrvState) (id : ID) (f : Session → Session) :
    mapLookup (st.updateSess id f).heap id = (mapLookup st.heap id).map f :=
  mapLookup_mapUpdate_self st.heap id f

theorem lookup_updateSess_other (st : SrvState) (id j : ID) (f : Session → Session)
    (hj : j ≠ id) :
    mapLookup (st.updateSess id f).heap j = mapLookup st.heap j :=
  mapLookup_mapUpdate_other st.heap id j f hj

theorem reg_updateSess (st : SrvState) (id : ID) (f : Session → Session) :
    (st.updateSess id f).reg = st.reg := rfl

theorem regGet_updateSess_self (st : SrvState) (id : ID) (f : Session → Session) :
    (st.updateSess id f).regGet id = (st.regGet id).map f := by
  by_cases h : id ∈ st.reg <;>
    simp [SrvState.regGet, reg_updateSess, lookup_updateSess_self, h]

theorem regGet_updateSess_other (st : SrvState) (id j : ID) (f : Session → Session)
    (hj : j ≠ id) :
    (st.updateSess id f).regGet j = st.regGet j := by
  simp [SrvState.regGet, reg_updateSess, lookup_updateSess_other st id j f hj]

theorem regGet_deleteReg_self (st : SrvState) (id : ID) :
    (st.deleteReg id).regGet id = none := by
  simp [SrvState.regGet, SrvState.deleteReg]

theorem regGet_deleteReg_other (st : SrvState) (id j : ID) (hj : j ≠ id) :
    (st.deleteReg id).regGet j = st.regGet j := by
  simp [SrvState.regGet, SrvState.deleteReg, List.mem_filter, hj]

theorem regGet_alloc_putReg_self (st : SrvState) (s : Session) :
    ((st.alloc s).putReg s.id).regGet s.id = some s := by
  unfold SrvState.regGet SrvState.putReg SrvState.alloc
  by_cases h : s.id ∈ st.reg <;> simp [h, mapLookup_mapInsert_self]

theorem regGet_alloc_putReg_other (st : SrvState) (s : Session) (j : ID)
    (hj : j ≠ s.id) :
    ((st.alloc s).putReg s.id).regGet j = st.regGet j := by
  unfold SrvState.regGet SrvState.putReg SrvState.alloc
  by_cases h : s.id ∈ st.reg <;>
    simp [h, hj, mapLookup_mapInsert_other st.heap s.id j s hj]

/-- Invariant of the read loop while it is still running: the session
pointer, when non-nil, designates a live heap object whose state is
Configured or Active. -/
def ConnInv (st : SrvState) (c : Conn) : Prop :=
  ∀ id, c.sess = some id → ∃ s, mapLookup st.heap id = some s ∧
    (s.state = State.configured ∨ s.state = State.active)

/-- Invariant of the shared state: no session reachable through the
registry is in the Connecting state. -/
def RegInv (st : SrvState) : Prop :=
  ∀ id s, st.regGet id = some s → s.state ≠ State.connecting

/-! ### Concrete sample data used to instantiate the theorems. -/

/-- A concrete setup payload. -/
def sampleSetup : SetupRequest := ⟨"gemini-1.5-flash", none⟩

/-- A concrete configured session as created by a successful setup. -/
def sampleSession : Session :=
  ⟨"sid-1", "gemini-1.5-flash", State.configured, "session_sid-1", 0, 0,
    [LogEntry.setup sampleSetup]⟩

/-- A server state holding `sampleSession`, registered. -/
def sampleState : SrvState := ⟨[("sid-1", sampleSession)], ["sid-1"]⟩

/-- The connection driving `sampleSession`. -/
def sampleConn : Conn := ⟨some "sid-1", "sid-1"⟩

/-- A parsed `input_text` frame. -/
def msgText (t : String) : RawMsg :=
  ⟨"input_text", none, some ⟨t, none⟩, none, none, none⟩

/-- A parsed `input_audio` frame (wav, final). -/
def msgAudio : RawMsg :=
  ⟨"input_audio", none, none, some ⟨"wav", "UklGRg==", true⟩, none, none⟩

/-- A parsed `end_session` frame. -/
def msgEnd : RawMsg := ⟨"end_session", none, none, none, none, some ⟨"x"⟩⟩

/-- A parsed `setup` frame. -/
def msgSetup : RawMsg := ⟨"setup", some sampleSetup, none, none, none, none⟩

/-- A frame with an unrecognized discriminator. -/
def msgBogus : RawMsg := ⟨"bogus", none, none, none, none, none⟩

/-- An environment whose write succeeds. -/
def envOk : StepEnv := ⟨"sid-2", 5, true⟩

/-- An environment whose write fails. -/
def envFail : StepEnv := ⟨"sid-2", 5, false⟩

/-! ### Claims. -/

/-- C1: dispatching a valid `input_text` frame with text `t` on a
connection whose session is live produces exactly one `output_text`
response with text `"[echo] " ++ t` and final `true`, sets the session
state to Active, and appends the input to the session log. -/
theorem c1_input_text_echo (st : SrvState) (c : Conn) (sid : ID) (s : Session)
    (env : StepEnv) (m : RawMsg) (ti : InputText)
    (hc : c.sess = some sid) (hs : mapLookup st.heap sid = some s)
    (hty : m.envType = "input_text") (hp : m.asText = some ti) :
    (dispatchStep env (.msg m) st c).writes
        = [⟨Response.outputText ("[echo] " ++ ti.text) true, env.wOk⟩]
    ∧ mapLookup (dispatchStep env (.msg m) st c).st.heap sid
        = some { s with state := State.active,
                        log := s.log ++ [LogEntry.text ti],
                        updatedAt := env.now } := by
  simp [dispatchStep, handleMessage, hty, handleInputText, hc, hp,
    lookup_updateSess_self, hs, Session.append]

/-- C1 witness: text "hi" yields exactly one `output_text` frame
`"[echo] hi"` with final `true`. -/
theorem c1_input_text_echo_instance :
    (dispatchStep envOk (.msg (msgText "hi")) sampleState sampleConn).writes
      = [⟨Response.outputText "[echo] hi" true, true⟩] := by
  have h := c1_input_text_echo sampleState sampleConn "sid-1" sampleSession envOk
    (msgText "hi") ⟨"hi", none⟩ rfl (by decide) rfl rfl
  exact h.1.trans (by decide)

/-- C4: a second `setup` on a connection that already has a session
yields exactly one `already_setup` error frame and changes nothing: the
shared state (hence the session's identifier, model, state and log) and
the connection variables are exactly as before, and the loop
continues. -/
theorem c4_second_setup (st : SrvState) (c : Conn) (sid : ID) (env : StepEnv)
    (m : RawMsg) (hc : c.sess = some sid) (hty : m.envType = "setup") :
    dispatchStep env (.msg m) st c
      = ⟨st, c,
          [⟨Response.error "already_setup" "Session already configured", env.wOk⟩],
          false⟩ := by
  simp [dispatchStep, handleMessage, hty, handleSetup, hc, sendError]

/-- C4 witness: a second setup on the sample configured connection
leaves state and connection untouched and emits the `already_setup`
error. -/
theorem c4_second_setup_instance :
    dispatchStep envOk (.msg msgSetup) sampleState sampleConn
      = ⟨sampleState, sampleConn,
          [⟨Response.error "already_setup" "Session already configured", true⟩],
          false⟩ := by
  have h := c4_second_setup sampleState sampleConn "sid-1" envOk msgSetup rfl rfl
  exact h.trans (by decide)

/-- C7: dispatching a valid `input_audio` frame with format `f` and
final flag `b` on a connection whose session is live produces exactly one
`output_text` response with text
`"Received audio chunk in " ++ f ++ " format (final: " ++ b ++ ")"` and
final `true`. -/
theorem c7_input_audio_ack (st : SrvState) (c : Conn) (sid : ID)
    (env : StepEnv) (m : RawMsg) (ai : InputAudio)
    (hc : c.sess = some sid)
    (hty : m.envType = "input_audio") (hp : m.asAudio = some ai) :
    (dispatchStep env (.msg m) st c).writes
      = [⟨Response.outputText
            ("Received audio chunk in " ++ ai.format ++ " format (final: "
              ++ (if ai.final then "true" else "false") ++ ")") true, env.wOk⟩] := by
  simp [dispatchStep, handleMessage, hty, handleInputAudio, hc, hp]

/-- C7 witness: wav with final `true` yields exactly
`"Received audio chunk in wav format (final: true)"`. -/
theorem c7_input_audio_ack_instance :
    (dispatchStep envOk (.msg msgAudio) sampleState sampleConn).writes
      = [⟨Response.outputText "Received audio chunk in wav format (final: true)"
            true, true⟩] := by
  have h := c7_input_audio_ack sampleState sampleConn "sid-1" envOk
    msgAudio ⟨"wav", "UklGRg==", true⟩ rfl rfl rfl
  exact h.trans (by decide)

/-- C3 counterexample: the claim says every message type other than
`setup` sent before setup yields a `no_session` error; a frame with the
unrecognized discriminator "bogus" on a fresh connection instead yields
an `unknown_type` error frame, which is not a `no_session` error for any
message text. -/
theorem c3_unknown_type_counterexample :
    (dispatchStep envOk (.msg msgBogus) initState initConn).writes
      = [⟨Response.error "unknown_type" "Unknown message type: bogus", true⟩]
    ∧ ∀ msgStr : String,
        Response.error "unknown_type" "Unknown message type: bogus"
          ≠ Response.error "no_session" msgStr := by
  refine ⟨by decide, ?_⟩
  intro msgStr h
  simp at h

/-- C3 (amended): dispatching any of the session-requiring message types
(`input_text`, `input_audio`, `tool_result`, `end_session`) before setup
has succeeded yields exactly one `no_session` error frame and changes
nothing: no entity is created, the registry is untouched and the
connection's session reference remains absent; the loop continues. -/
theorem c3_no_session_before_setup (st : SrvState) (c : Conn) (env : StepEnv)
    (m : RawMsg) (hc : c.sess = none)
    (hty : m.envType = "input_text" ∨ m.envType = "input_audio"
         ∨ m.envType = "tool_result" ∨ m.envType = "end_session") :
    dispatchStep env (.msg m) st c
      = ⟨st, c, [⟨Response.error "no_session" "No active session", env.wOk⟩],
          false⟩ := by
  rcases hty with hty | hty | hty | hty <;>
    simp [dispatchStep, handleMessage, hty, handleInputText, handleInputAudio,
      handleToolResult, handleEndSession, hc, sendError]

/-- C3 witness: an `input_text` frame on a fresh connection yields the
`no_session` error and leaves the state untouched. -/
theorem c3_no_session_before_setup_instance :
    dispatchStep envOk (.msg (msgText "hi")) initState initConn
      = ⟨initState, initConn,
          [⟨Response.error "no_session" "No active session", true⟩], false⟩ := by
  have h := c3_no_session_before_setup initState initConn envOk (msgText "hi")
    rfl (Or.inl rfl)
  exact h.trans (by decide)

/-- C5: dispatching a valid `end_session` frame on a connection whose
session is live emits exactly one `output_text` response
"Goodbye! Session ended." with final `true`, appends the message to the
log, leaves the session Closed (it is set Closing and then Closed),
removes the identifier from the registry so a subsequent `Get` reports
not present, and terminates the dispatch loop. -/
theorem c5_end_session (st : SrvState) (c : Conn) (sid : ID) (s : Session)
    (env : StepEnv) (m : RawMsg) (e : SessionEnd)
    (hc : c.sess = some sid) (hid : c.sessionID = sid)
    (hs : mapLookup st.heap sid = some s)
    (hty : m.envType = "end_session") (hp : m.asEnd = some e) :
    (dispatchStep env (.msg m) st c).writes
        = [⟨Response.outputText "Goodbye! Session ended." true, env.wOk⟩]
    ∧ mapLookup (dispatchStep env (.msg m) st c).st.heap sid
        = some { s with state := State.closed,
                        log := s.log ++ [LogEntry.ended e],
                        updatedAt := env.now }
    ∧ (dispatchStep env (.msg m) st c).st.regGet sid = none
    ∧ (dispatchStep env (.msg m) st c).stop = true := by
  refine ⟨?_, ?_, ?_, ?_⟩
  · simp [dispatchStep, handleMessage, hty, handleEndSession, hc, hp]
  · have hheap : ∀ st2 : SrvState, (st2.deleteReg sid).heap = st2.heap := fun _ => rfl
    simp [dispatchStep, handleMessage, hty, handleEndSession, hc, hp, hid, hheap,
      lookup_updateSess_self, hs, Session.append]
  · simp [dispatchStep, handleMessage, hty, handleEndSession, hc, hp, hid,
      regGet_deleteReg_self]
  · simp [dispatchStep, handleMessage, hty, handleEndSession, hc, hp]

/-- C5 witness: ending the sample session emits exactly the goodbye
frame, closes and appends to the session, deregisters `sid-1` and stops
the loop. -/
theorem c5_end_session_instance :
    (dispatchStep envOk (.msg msgEnd) sampleState sampleConn).writes
        = [⟨Response.outputText "Goodbye! Session ended." true, true⟩]
    ∧ (dispatchStep envOk (.msg msgEnd) sampleState sampleConn).st.regGet "sid-1"
        = none
    ∧ (dispatchStep envOk (.msg msgEnd) sampleState sampleConn).stop = true := by
  have h := c5_end_session sampleState sampleConn "sid-1" sampleSession envOk
    msgEnd ⟨"x"⟩ rfl rfl (by decide) rfl rfl
  exact ⟨h.1.trans (by decide), h.2.2.1, h.2.2.2⟩

/-- C9: a successful setup emits exactly one `session_resumption_update`
whose handle is `"session_" ++ id` for the new session's id; the stored
session carries the same handle derived from its own id, and the handle
determines the id. -/
theorem c9_resumption_update (st : SrvState) (c : Conn) (env : StepEnv)
    (m : RawMsg) (req : SetupRequest)
    (hc : c.sess = none) (hty : m.envType = "setup") (hp : m.asSetup = some req) :
    (dispatchStep env (.msg m) st c).writes
        = [⟨Response.resumptionUpdate ("session_" ++ env.freshID), env.wOk⟩]
    ∧ ((dispatchStep env (.msg m) st c).st.regGet env.freshID).map
          (fun s => (s.resumptionHandle, s.id))
        = some ("session_" ++ env.freshID, env.freshID)
    ∧ (∀ i j : ID, "session_" ++ i = "session_" ++ j → i = j) := by
  refine ⟨?_, ?_, ?_⟩
  · simp [dispatchStep, handleMessage, hty, handleSetup, hc, hp]
  · have halloc := regGet_alloc_putReg_self st
      ⟨env.freshID, req.model, State.configured, "session_" ++ env.freshID,
        env.now, env.now, []⟩
    simp only at halloc
    simp [dispatchStep, handleMessage, hty, handleSetup, hc, hp, NewSession,
      regGet_updateSess_self, halloc, Session.append]
  · intro i j h
    have hdata : ("session_" ++ i).data = ("session_" ++ j).data :=
      congrArg String.data h
    simp only [String.data_append] at hdata
    have hcan := List.append_cancel_left hdata
    cases i
    cases j
    exact congrArg String.mk hcan

/-- C9 witness: setting up on a fresh connection with generated id
`sid-2` emits the handle `session_sid-2`, which is also the stored
session's handle. -/
theorem c9_resumption_update_instance :
    (dispatchStep envOk (.msg msgSetup) initState initConn).writes
        = [⟨Response.resumptionUpdate "session_sid-2", true⟩]
    ∧ ((dispatchStep envOk (.msg msgSetup) initState initConn).st.regGet
          "sid-2").map (fun s => (s.resumptionHandle, s.id))
        = some ("session_sid-2", "sid-2") := by
  have h := c9_resumption_update initState initConn envOk msgSetup sampleSetup
    rfl rfl rfl
  exact ⟨h.1.trans (by decide), h.2.1.trans (by decide)⟩

/-- C6: the registry Store contract: `Get` after `Delete` of the same
identifier reports not present; `Delete` of an absent identifier is a
no-op (no error, the map is unchanged); `Delete` leaves every other
entry unchanged; and `Get` leaves the store exactly as it was. -/
theorem c6_store_contract (m : StoreMap) (id j miss : ID)
    (hmiss : mapLookup m miss = none) (hj : j ≠ id) :
    (Store.get (Store.delete m id) id).1 = none
    ∧ Store.delete m miss = m
    ∧ (Store.get (Store.delete m id) j).1 = (Store.get m j).1
    ∧ (Store.get m id).2 = m := by
  refine ⟨?_, ?_, ?_, rfl⟩
  · simpa [Store.get, Store.delete] using mapLookup_mapErase_self m id
  · simpa [Store.delete] using mapErase_absent m miss hmiss
  · simpa [Store.get, Store.delete] using mapLookup_mapErase_other m id j hj

/-- C6 witness: on a one-entry store, deleting `sid-1` makes its `Get`
report not present, deleting the absent `missing` id changes nothing,
and `Get` does not modify the store. -/
theorem c6_store_contract_instance :
    (Store.get (Store.delete [("sid-1", sampleSession)] "sid-1") "sid-1").1 = none
    ∧ Store.delete [("sid-1", sampleSession)] "missing" = [("sid-1", sampleSession)]
    ∧ (Store.get (Store.delete [("sid-1", sampleSession)] "sid-1") "other").1
        = (Store.get [("sid-1", sampleSession)] "other").1
    ∧ (Store.get [("sid-1", sampleSession)] "sid-1").2 = [("sid-1", sampleSession)] := by
  exact c6_store_contract [("sid-1", sampleSession)] "sid-1" "other" "missing"
    (by decide) (by decide)

/-- C8 counterexample: the claim says a failure of any write (error
frames included) terminates the connection; but `sendError` only logs a
failed write and the loop keeps reading.  Concretely: an `input_text`
frame before setup triggers a `no_session` error frame whose write fails
(`ok = false`), yet a second frame is still read and handled (the run
trace has two entries). -/
theorem c8_error_write_failure_continues :
    (dispatchStep envFail (.msg (msgText "hi")) initState initConn).writes
      = [⟨Response.error "no_session" "No active session", false⟩]
    ∧ (run initState initConn
        [(.msg (msgText "hi"), envFail), (.msg (msgText "hi"), envFail)]).length
        = 2 := by
  constructor <;> decide

/-- C8 (amended): a failure of the write of a non-error response frame
(resumption update, echo, audio acknowledgment, goodbye) terminates the
connection; a failed write of an `error` frame is only logged and the
loop continues. -/
theorem c8_nonerror_write_failure_stops (env : StepEnv) (f : InFrame)
    (st : SrvState) (c : Conn) (w : Write)
    (hw : w ∈ (dispatchStep env f st c).writes)
    (hok : w.ok = false) (herr : w.resp.isErr = false) :
    (dispatchStep env f st c).stop = true := by
  cases f with
  | nonText =>
    simp [dispatchStep, sendError] at hw
    simp_all [Response.isErr]
  | badEnvelope =>
    simp [dispatchStep, sendError] at hw
    simp_all [Response.isErr]
  | msg m =>
    simp only [dispatchStep, handleMessage] at hw ⊢
    split_ifs at hw ⊢
    · rcases hcs : c.sess with _ | sid
      · rcases hreq : m.asSetup with _ | req
        · simp_all [handleSetup, sendError, Response.isErr]
        · simp_all [handleSetup]
      · simp_all [handleSetup, sendError, Response.isErr]
    · rcases hcs : c.sess with _ | sid
      · simp_all [handleInputText, sendError, Response.isErr]
      · rcases hti : m.asText with _ | ti
        · simp_all [handleInputText, sendError, Response.isErr]
        · simp_all [handleInputText]
    · rcases hcs : c.sess with _ | sid
      · simp_all [handleInputAudio, sendError, Response.isErr]
      · rcases hai : m.asAudio with _ | ai
        · simp_all [handleInputAudio, sendError, Response.isErr]
        · simp_all [handleInputAudio]
    · rcases hcs : c.sess with _ | sid
      · simp_all [handleToolResult, sendError, Response.isErr]
      · rcases htr : m.asTool with _ | tr
        · simp_all [handleToolResult, sendError, Response.isErr]
        · simp_all [handleToolResult]
    · rcases hcs : c.sess with _ | sid
      · simp_all [handleEndSession, sendError, Response.isErr]
      · rcases hse : m.asEnd with _ | se
        · simp_all [handleEndSession, sendError, Response.isErr]
        · simp_all [handleEndSession]
    · simp_all [sendError, Response.isErr]

/-- C8 witness: the echo write of an `input_text` fails, and the step
reports `shouldReturn = true`: the loop stops, no further frame is
handled. -/
theorem c8_nonerror_write_failure_stops_instance :
    Write.mk (Response.outputText ("[echo] " ++ "hi") true) false
        ∈ (dispatchStep envFail (.msg (msgText "hi")) sampleState sampleConn).writes
    ∧ (dispatchStep envFail (.msg (msgText "hi")) sampleState sampleConn).stop
        = true := by
  refine ⟨by decide, ?_⟩
  exact c8_nonerror_write_failure_stops envFail (.msg (msgText "hi")) sampleState
    sampleConn (Write.mk (Response.outputText ("[echo] " ++ "hi") true) false)
    (by decide) rfl rfl

theorem connecting_le (a : State) : State.le State.connecting a := by
  cases a <;> decide

theorem le_closed (a : State) : State.le a State.closed := by
  cases a <;> decide

/-- Every dispatch iteration moves the connection-observed session state
forward along the protocol order, and keeps the loop invariant as long
as it continues. -/
theorem dispatchStep_mono (env : StepEnv) (f : InFrame) (st : SrvState) (c : Conn)
    (h : ConnInv st c) :
    State.le (obsState st c)
        (obsState (dispatchStep env f st c).st (dispatchStep env f st c).conn)
    ∧ ((dispatchStep env f st c).stop = false →
        ConnInv (dispatchStep env f st c).st (dispatchStep env f st c).conn) := by
  cases f with
  | nonText => exact ⟨State.le_refl _, fun _ => h⟩
  | badEnvelope => exact ⟨State.le_refl _, fun _ => h⟩
  | msg m =>
    simp only [dispatchStep, handleMessage]
    split_ifs
    · -- setup
      rcases hcs : c.sess with _ | sid
      · rcases hreq : m.asSetup with _ | req
        · simp only [handleSetup, hcs, hreq]
          exact ⟨State.le_refl _, fun _ => h⟩
        · simp only [handleSetup, hcs, hreq]
          have hobs : obsState st c = State.connecting := by simp [obsState, hcs]
          constructor
          · rw [hobs]
            exact connecting_le _
          · intro _ id hid
            simp only [Option.some.injEq] at hid
            subst hid
            refine ⟨⟨env.freshID, req.model, State.configured,
                "session_" ++ env.freshID, env.now, env.now,
                [LogEntry.setup req]⟩, ?_, Or.inl rfl⟩
            simp [SrvState.updateSess, SrvState.putReg, SrvState.alloc,
              mapLookup_mapUpdate_self, mapLookup_mapInsert_self, NewSession,
              Session.append]
      · simp only [handleSetup, hcs]
        exact ⟨State.le_refl _, fun _ => h⟩
    · -- input_text
      rcases hcs : c.sess with _ | sid
      · simp only [handleInputText, hcs]
        exact ⟨State.le_refl _, fun _ => h⟩
      · rcases hti : m.asText with _ | ti
        · simp only [handleInputText, hcs, hti]
          exact ⟨State.le_refl _, fun _ => h⟩
        · obtain ⟨s, hs, hstate⟩ := h sid hcs
          simp only [handleInputText, hcs, hti]
          constructor
          · simp [obsState, hcs, hs, lookup_updateSess_self, Session.append]
            rcases hstate with h2 | h2 <;> rw [h2] <;> decide
          · intro _ id hid
            rw [hcs] at hid
            obtain rfl := Option.some.inj hid
            refine ⟨Session.append { s with state := State.active }
                (LogEntry.text ti) env.now, ?_, Or.inr rfl⟩
            simp [lookup_updateSess_self, hs]
    · -- input_audio
      rcases hcs : c.sess with _ | sid
      · simp only [handleInputAudio, hcs]
        exact ⟨State.le_refl _, fun _ => h⟩
      · rcases hai : m.asAudio with _ | ai
        · simp only [handleInputAudio, hcs, hai]
          exact ⟨State.le_refl _, fun _ => h⟩
        · obtain ⟨s, hs, hstate⟩ := h sid hcs
          simp only [handleInputAudio, hcs, hai]
          constructor
          · simp [obsState, hcs, hs, lookup_updateSess_self, Session.append]
            rcases hstate with h2 | h2 <;> rw [h2] <;> decide
          · intro _ id hid
            rw [hcs] at hid
            obtain rfl := Option.some.inj hid
            refine ⟨Session.append { s with state := State.active }
                (LogEntry.audio ai) env.now, ?_, Or.inr rfl⟩
            simp [lookup_updateSess_self, hs]
    · -- tool_result
      rcases hcs : c.sess with _ | sid
      · simp only [handleToolResult, hcs]
        exact ⟨State.le_refl _, fun _ => h⟩
      · rcases htr : m.asTool with _ | tr
        · simp only [handleToolResult, hcs, htr]
          exact ⟨State.le_refl _, fun _ => h⟩
        · obtain ⟨s, hs, hstate⟩ := h sid hcs
          simp only [handleToolResult, hcs, htr]
          constructor
          · simp [obsState, hcs, hs, lookup_updateSess_self, Session.append]
            exact State.le_refl _
          · intro _ id hid
            rw [hcs] at hid
            obtain rfl := Option.some.inj hid
            exact ⟨Session.append s (LogEntry.tool tr) env.now,
              by simp [lookup_updateSess_self, hs], hstate⟩
    · -- end_session
      rcases hcs : c.sess with _ | sid
      · simp only [handleEndSession, hcs]
        exact ⟨State.le_refl _, fun _ => h⟩
      · rcases hse : m.asEnd with _ | se
        · simp only [handleEndSession, hcs, hse]
          exact ⟨State.le_refl _, fun _ => h⟩
        · obtain ⟨s, hs, hstate⟩ := h sid hcs
          simp only [handleEndSession, hcs, hse]
          have hdel : ∀ st2 : SrvState, (st2.deleteReg c.sessionID).heap = st2.heap :=
            fun _ => rfl
          constructor
          · simp [obsState, hcs, hs, hdel, lookup_updateSess_self, Session.append]
            exact le_closed _
          · intro hfalse
            simp at hfalse
    · -- unknown discriminator
      exact ⟨State.le_refl _, fun _ => h⟩

/-- From any configuration satisfying the loop invariant, the observed
session states along a run form a monotone chain. -/
theorem run_chain (l : List (InFrame × StepEnv)) : ∀ (st : SrvState) (c : Conn),
    ConnInv st c →
    List.Chain' (fun a b => State.le a b)
      (obsState st c :: (run st c l).map fun p => obsState p.1 p.2) := by
  induction l with
  | nil =>
    intro st c _
    simp [run]
  | cons q rest ih =>
    intro st c h
    obtain ⟨f, env⟩ := q
    have hm := dispatchStep_mono env f st c h
    by_cases hstop : (dispatchStep env f st c).stop = true
    · simp only [run, hstop, if_true, List.map_cons, List.map_nil]
      exact List.chain'_cons.mpr ⟨hm.1, List.chain'_singleton _⟩
    · rw [Bool.not_eq_true] at hstop
      simp only [run, hstop, Bool.false_eq_true, if_false, List.map_cons]
      refine List.chain'_cons.mpr ⟨hm.1, ?_⟩
      exact ih _ _ (hm.2 hstop)

/-- C2: along every run of the read loop from a fresh connection, the
observed session state only ever advances along the order
Connecting, Configured, Active, Closing, Closed; no step regresses it. -/
theorem c2_state_monotone (l : List (InFrame × StepEnv)) :
    List.Chain' (fun a b => State.le a b)
      (obsState initState initConn
        :: (run initState initConn l).map fun p => obsState p.1 p.2) := by
  refine run_chain l initState initConn ?_
  intro id hid
  simp [initConn] at hid

theorem regGet_alloc_putReg_self2 (st : SrvState) (s : Session) (idv : ID)
    (hsid : s.id = idv) : ((st.alloc s).putReg idv).regGet idv = some s := by
  subst hsid
  exact regGet_alloc_putReg_self st s

theorem regGet_alloc_putReg_other2 (st : SrvState) (s : Session) (idv j : ID)
    (hsid : s.id = idv) (hj : j ≠ idv) :
    ((st.alloc s).putReg idv).regGet j = st.regGet j := by
  subst hsid
  exact regGet_alloc_putReg_other st s j hj

/-- Every dispatch iteration preserves the registry invariant: no
reachable session is in the Connecting state. -/
theorem dispatchStep_regInv (env : StepEnv) (f : InFrame) (st : SrvState)
    (c : Conn) (h : RegInv st) : RegInv (dispatchStep env f st c).st := by
  cases f with
  | nonText => exact h
  | badEnvelope => exact h
  | msg m =>
    simp only [dispatchStep, handleMessage]
    split_ifs
    · -- setup
      rcases hcs : c.sess with _ | sid
      · rcases hreq : m.asSetup with _ | req
        · simpa only [handleSetup, hcs, hreq] using h
        · simp only [handleSetup, hcs, hreq]
          intro id s hid
          by_cases hEq : id = env.freshID
          · subst hEq
            rw [regGet_updateSess_self,
              regGet_alloc_putReg_self2 st _ env.freshID rfl] at hid
            rcases Option.map_eq_some'.mp hid with ⟨s0, h0, hfeq⟩
            obtain rfl := Option.some.inj h0
            subst hfeq
            simp [Session.append, NewSession]
          · rw [regGet_updateSess_other _ _ _ _ hEq,
              regGet_alloc_putReg_other2 st _ env.freshID id rfl hEq] at hid
            exact h id s hid
      · simpa only [handleSetup, hcs] using h
    · -- input_text
      rcases hcs : c.sess with _ | sid
      · simpa only [handleInputText, hcs] using h
      · rcases hti : m.asText with _ | ti
        · simpa only [handleInputText, hcs, hti] using h
        · simp only [handleInputText, hcs, hti]
          intro id s hid
          by_cases hEq : id = sid
          · subst hEq
            rw [regGet_updateSess_self] at hid
            rcases Option.map_eq_some'.mp hid with ⟨s0, h0, hfeq⟩
            subst hfeq
            simp [Session.append]
          · rw [regGet_updateSess_other _ _ _ _ hEq] at hid
            exact h id s hid
    · -- input_audio
      rcases hcs : c.sess with _ | sid
      · simpa only [handleInputAudio, hcs] using h
      · rcases hai : m.asAudio with _ | ai
        · simpa only [handleInputAudio, hcs, hai] using h
        · simp only [handleInputAudio, hcs, hai]
          intro id s hid
          by_cases hEq : id = sid
          · subst hEq
            rw [regGet_updateSess_self] at hid
            rcases Option.map_eq_some'.mp hid with ⟨s0, h0, hfeq⟩
            subst hfeq
            simp [Session.append]
          · rw [regGet_updateSess_other _ _ _ _ hEq] at hid
            exact h id s hid
    · -- tool_result
      rcases hcs : c.sess with _ | sid
      · simpa only [handleToolResult, hcs] using h
      · rcases htr : m.asTool with _ | tr
        · simpa only [handleToolResult, hcs, htr] using h
        · simp only [handleToolResult, hcs, htr]
          intro id s hid
          by_cases hEq : id = sid
          · subst hEq
            rw [regGet_updateSess_self] at hid
            rcases Option.map_eq_some'.mp hid with ⟨s0, h0, hfeq⟩
            subst hfeq
            have hns := h id s0 h0
            simpa [Session.append] using hns
          · rw [regGet_updateSess_other _ _ _ _ hEq] at hid
            exact h id s hid
    · -- end_session
      rcases hcs : c.sess with _ | sid
      · simpa only [handleEndSession, hcs] using h
      · rcases hse : m.asEnd with _ | se
        · simpa only [handleEndSession, hcs, hse] using h
        · simp only [handleEndSession, hcs, hse]
          intro id s hid
          by_cases hdel : id = c.sessionID
          · subst hdel
            rw [regGet_deleteReg_self] at hid
            exact absurd hid (by simp)
          · rw [regGet_deleteReg_other _ _ _ hdel] at hid
            by_cases hEq : id = sid
            · subst hEq
              rw [regGet_updateSess_self, regGet_updateSess_self] at hid
              rcases Option.map_eq_some'.mp hid with ⟨s1, h1, hfeq⟩
              subst hfeq
              simp
            · rw [regGet_updateSess_other _ _ _ _ hEq,
                regGet_updateSess_other _ _ _ _ hEq] at hid
              exact h id s hid
    · -- unknown discriminator
      exact h

/-- Along any run of the read loop, every configuration's registry
satisfies the invariant, provided the starting one does. -/
theorem run_regInv (l : List (InFrame × StepEnv)) : ∀ (st : SrvState) (c : Conn),
    RegInv st → ∀ p ∈ run st c l, RegInv p.1 := by
  induction l with
  | nil =>
    intro st c _ p hp
    simp [run] at hp
  | cons q rest ih =>
    intro st c h p hp
    obtain ⟨f, env⟩ := q
    simp only [run] at hp
    rcases List.mem_cons.mp hp with rfl | hp2
    · exact dispatchStep_regInv env f st c h
    · by_cases hstop : (dispatchStep env f st c).stop = true
      · rw [if_pos hstop] at hp2
        simp at hp2
      · rw [if_neg hstop] at hp2
        exact ih _ _ (dispatchStep_regInv env f st c h) p hp2

/-- C10: a successful setup stores the new session with exactly one log
entry (the parsed setup payload) and already in the Configured state;
and along every run of the loop from the initial state, no session
reachable through the registry is ever in the Connecting state at a
handler boundary. -/
theorem c10_setup_log_and_registry (st : SrvState) (c : Conn) (env : StepEnv)
    (m : RawMsg) (req : SetupRequest)
    (hc : c.sess = none) (hty : m.envType = "setup") (hp : m.asSetup = some req) :
    (dispatchStep env (.msg m) st c).st.regGet env.freshID
        = some ⟨env.freshID, req.model, State.configured,
            "session_" ++ env.freshID, env.now, env.now, [LogEntry.setup req]⟩
    ∧ ∀ (l : List (InFrame × StepEnv)) (p : SrvState × Conn),
        p ∈ run initState initConn l → ∀ id s, p.1.regGet id = some s →
          s.state ≠ State.connecting := by
  constructor
  · have halloc := regGet_alloc_putReg_self st
      ⟨env.freshID, req.model, State.configured, "session_" ++ env.freshID,
        env.now, env.now, []⟩
    simp only at halloc
    simp [dispatchStep, handleMessage, hty, handleSetup, hc, hp, NewSession,
      regGet_updateSess_self, halloc, Session.append]
  · intro l p hmem id s hid
    refine run_regInv l initState initConn ?_ p hmem id s hid
    intro id2 s2 h2
    simp [initState, SrvState.regGet] at h2

/-- C10 witness: after a concrete setup the registry holds exactly the
one-entry-log Configured session, and the stored session of the
resulting run configuration is not Connecting. -/
theorem c10_setup_log_and_registry_instance :
    (dispatchStep envOk (.msg msgSetup) initState initConn).st.regGet "sid-2"
        = some ⟨"sid-2", "gemini-1.5-flash", State.configured, "session_sid-2",
            5, 5, [LogEntry.setup sampleSetup]⟩
    ∧ (⟨"sid-2", "gemini-1.5-flash", State.configured, "session_sid-2",
          5, 5, [LogEntry.setup sampleSetup]⟩ : Session).state
        ≠ State.connecting := by
  have h := c10_setup_log_and_registry initState initConn envOk msgSetup
    sampleSetup rfl rfl rfl
  refine ⟨h.1.trans (by decide), ?_⟩
  exact h.2 [(InFrame.msg msgSetup, envOk)]
    ((dispatchStep envOk (.msg msgSetup) initState initConn).st,
      (dispatchStep envOk (.msg msgSetup) initState initConn).conn)
    (by decide) "sid-2"
    ⟨"sid-2", "gemini-1.5-flash", State.configured, "session_sid-2",
      5, 5, [LogEntry.setup sampleSetup]⟩ (by decide)

end Twinspeak
